import Mathlib

/-!
Verification of the date-resolution cascade and completeness check of
SmartSearch (src/app.py).

The embedding follows the source:
* `Date` models Python `datetime` restricted to its calendar component
  (`datetime.MINYEAR = 1` to `datetime.MAXYEAR = 9999`); time of day is
  irrelevant to every observable output (all outputs go through
  `strftime('%Y-%m-%d')` and whole-day arithmetic never moves a date
  boundary).
* `addDays` models `today + timedelta(days=n)`: `timedelta(days=n)` raises
  `OverflowError` for `n > 999999999`, and the addition raises
  `OverflowError` when the result passes `datetime.max` (ordinal 3652059).
* `nextMonthRd` models `today + relativedelta(months=1)`: month advance with
  the day clamped to the target month length, raising `ValueError` from
  `datetime.replace` when the year would pass 9999.
* `fromOrdinal` transliterates CPython `datetime._ord2ymd`.
* The two external parser libraries used as fallbacks (`parsedatetime`,
  `dateutil.parser`) are external collaborators and are passed as function
  parameters `pdt du : String → Date → Option Date` (success yields the
  parsed date, failure yields `none`; the `dateutil` call site wraps its
  exceptions into `None` itself, and the `parsedatetime` call site only
  formats on success).
* Python `str.lower`/`str.strip` are modelled on ASCII (every phrase the
  cascade inspects is ASCII), and the `re.search(r'after (\d+) days?', s)`
  call is modelled by `findAfterDays`, a leftmost search for
  `"after "`, a nonempty maximal digit run, then `" day"`.
-/

deriving instance DecidableEq for Except

namespace SmartSearch

/-- Python exceptions that can escape the modelled code paths. -/
inductive PyExn where
  | overflowError
  | valueError
  deriving DecidableEq, Repr

/-- Calendar date, the date component of a Python `datetime`. -/
structure Date where
  year : Nat
  month : Nat
  day : Nat
  deriving DecidableEq, Repr

/-- Gregorian leap-year test, as in Python `calendar.isleap`. -/
def isLeap (y : Nat) : Bool :=
  (y % 4 == 0 && y % 100 != 0) || y % 400 == 0

/-- Number of days in a month, as in `calendar.monthrange`. -/
def daysInMonth (y m : Nat) : Nat :=
  if m == 2 then (if isLeap y then 29 else 28)
  else if m == 4 || m == 6 || m == 9 || m == 11 then 30
  else 31

/-- Days before the start of month `m` in year `y` (CPython `_days_before_month`). -/
def daysBeforeMonth (y m : Nat) : Nat :=
  (match m with
   | 2 => 31 | 3 => 59 | 4 => 90 | 5 => 120 | 6 => 151 | 7 => 181
   | 8 => 212 | 9 => 243 | 10 => 273 | 11 => 304 | 12 => 334 | _ => 0)
  + (if 2 < m && isLeap y then 1 else 0)

/-- Proleptic Gregorian ordinal (CPython `datetime.toordinal`): 0001-01-01 is day 1. -/
def toOrdinal (d : Date) : Nat :=
  365 * (d.year - 1) + (d.year - 1) / 4 - (d.year - 1) / 100 + (d.year - 1) / 400
    + daysBeforeMonth d.year d.month + d.day

/-- Month lengths of a year. -/
def monthLens (leap : Bool) : List Nat :=
  [31, if leap then 29 else 28, 31, 30, 31, 30, 31, 31, 30, 31, 30, 31]

/-- Locate the month containing 0-based day index `r` of a year. -/
def monthFromIdx : List Nat → Nat → Nat → Nat × Nat
  | [], m, r => (m, r + 1)
  | len :: rest, m, r => if r < len then (m, r + 1) else monthFromIdx rest (m + 1) (r - len)

/-- Inverse of `toOrdinal` (CPython `datetime._ord2ymd`). -/
def fromOrdinal (n : Nat) : Date :=
  let n0 := n - 1
  let n400 := n0 / 146097
  let r400 := n0 % 146097
  let n100 := r400 / 36524
  let r100 := r400 % 36524
  let n4 := r100 / 1461
  let r4 := r100 % 1461
  let n1 := r4 / 365
  let r1 := r4 % 365
  let year := 400 * n400 + 100 * n100 + 4 * n4 + n1 + 1
  if n1 == 4 || n100 == 4 then ⟨year - 1, 12, 31⟩
  else
    let md := monthFromIdx (monthLens (isLeap year)) 1 r1
    ⟨year, md.1, md.2⟩

/-- Ordinal of `datetime.max`, CPython `_MAXORDINAL` (9999-12-31). -/
def maxOrdinal : Nat := 3652059

/-- A valid Python `datetime` calendar value. -/
def Date.validB (d : Date) : Bool :=
  Nat.ble 1 d.year && Nat.ble d.year 9999 && Nat.ble 1 d.month && Nat.ble d.month 12
    && Nat.ble 1 d.day && Nat.ble d.day (daysInMonth d.year d.month)

/-- `today + timedelta(days=n)`: `timedelta` rejects `days > 999999999` with
`OverflowError`, and the `datetime` addition raises `OverflowError` when the
result passes `datetime.max`. -/
def addDays (d : Date) (n : Nat) : Except PyExn Date :=
  if n > 999999999 then .error .overflowError
  else if toOrdinal d + n > maxOrdinal then .error .overflowError
  else .ok (fromOrdinal (toOrdinal d + n))

/-- The clamped month advance computed by `relativedelta(months=1)`. -/
def nextMonthDate (d : Date) : Date :=
  let y := if d.month == 12 then d.year + 1 else d.year
  let m := if d.month == 12 then 1 else d.month + 1
  ⟨y, m, min d.day (daysInMonth y m)⟩

/-- `today + relativedelta(months=1)`: advance one calendar month clamping the
day; `datetime.replace` raises `ValueError` when the year passes 9999. -/
def nextMonthRd (d : Date) : Except PyExn Date :=
  if (nextMonthDate d).year > 9999 then .error .valueError
  else .ok (nextMonthDate d)

/-! ### String helpers (ASCII model of the Python string operations used) -/

/-- ASCII lower-casing of one character (`str.lower` restricted to ASCII). -/
def lowerChar (c : Char) : Char :=
  if 'A' ≤ c && c ≤ 'Z' then Char.ofNat (c.toNat + 32) else c

/-- Characters removed by Python `str.strip()` (ASCII whitespace). -/
def isStripSpace (c : Char) : Bool :=
  c == ' ' || c == '\t' || c == '\n' || c == '\x0d' || c == '\x0b' || c == '\x0c'

/-- Remove leading and trailing whitespace (`str.strip()`). -/
def trimL (l : List Char) : List Char :=
  ((l.dropWhile isStripSpace).reverse.dropWhile isStripSpace).reverse

/-- `natural_date.lower().strip()` from `parse_date_string`. -/
def normL (s : String) : List Char :=
  trimL (s.data.map lowerChar)

/-- Does `hay` start with `pat`? -/
def startsWithL : List Char → List Char → Bool
  | _, [] => true
  | [], _ :: _ => false
  | c :: cs, d :: ds => c == d && startsWithL cs ds

/-- Does `hay` contain `pat` as a contiguous substring (`pat in hay`)? -/
def containsSub : List Char → List Char → Bool
  | [], pat => pat.isEmpty
  | hay@(_ :: rest), pat => startsWithL hay pat || containsSub rest pat

/-- Numeric value of a digit run (`int` on a decimal digit string). -/
def digitsToNat (ds : List Char) : Nat :=
  ds.foldl (fun a c => a * 10 + (c.toNat - 48)) 0

/-- Try to match `after (\d+) days?` at the head of `l`. -/
def matchAfterAt (l : List Char) : Option Nat :=
  if startsWithL l ("after ".data) then
    let rest := l.drop 6
    let ds := rest.takeWhile Char.isDigit
    if ds.isEmpty then none
    else if startsWithL (rest.drop ds.length) (" day".data) then some (digitsToNat ds)
    else none
  else none

/-- `re.search(r'after (\d+) days?', l)`: leftmost match, returning the
captured number. The digit run is maximal (a greedy `\d+` cannot backtrack
here, since any shorter run is followed by a digit and not by a space). -/
def findAfterDays : List Char → Option Nat
  | [] => none
  | l@(_ :: rest) =>
    match matchAfterAt l with
    | some n => some n
    | none => findAfterDays rest

/-- Decimal digit character. -/
def digitChar (n : Nat) : Char := Char.ofNat (48 + n % 10)

/-- Four-digit zero-padded year. -/
def pad4 (n : Nat) : List Char :=
  [digitChar (n / 1000), digitChar (n / 100), digitChar (n / 10), digitChar n]

/-- Two-digit zero-padded field. -/
def pad2 (n : Nat) : List Char :=
  [digitChar (n / 10), digitChar n]

/-- `strftime('%Y-%m-%d')`. -/
def formatDate (d : Date) : String :=
  ⟨pad4 d.year ++ '-' :: (pad2 d.month ++ '-' :: pad2 d.day)⟩

/-- Split a character list on `'-'`. -/
def splitDash : List Char → List (List Char)
  | [] => [[]]
  | c :: rest =>
    match splitDash rest with
    | [] => [[]]
    | g :: gs => if c == '-' then [] :: g :: gs else (c :: g) :: gs

/-- `datetime.strptime(s, "%Y-%m-%d")`, as an `Option`: `%Y` takes at most four
digits, `%m`/`%d` at most two, and the field values must form a valid date. -/
def strptimeYMD (s : String) : Option Date :=
  match splitDash s.data with
  | [ys, ms, ds] =>
    if !ys.isEmpty && ys.length ≤ 4 && ys.all Char.isDigit
        && !ms.isEmpty && ms.length ≤ 2 && ms.all Char.isDigit
        && !ds.isEmpty && ds.length ≤ 2 && ds.all Char.isDigit then
      let d : Date := ⟨digitsToNat ys, digitsToNat ms, digitsToNat ds⟩
      if d.validB then some d else none
    else none
  | _ => none

/-! ### The resolver (`parse_date_string`, src/app.py lines 74-106) -/

/-- Phrase checked first in the cascade. -/
def dayAfterTomorrowL : List Char := "day after tomorrow".data

/-- Phrase checked second in the cascade. -/
def tomorrowL : List Char := "tomorrow".data

/-- Phrase checked third in the cascade. -/
def nextMonthL : List Char := "next month".data

/-- The two library fallbacks at the end of the cascade: `parsedatetime`
first (formatting its result on success), then `dateutil.parser.parse`
with `fuzzy=True, default=today` (whose exceptions the source converts to
`None`). -/
def fallback2 (pdt du : String → Date → Option Date) (nd : String) (today : Date) :
    Option String :=
  match pdt nd today with
  | some d => some (formatDate d)
  | none => (du nd today).map formatDate

/-- `parse_date_string(natural_date, base_date=None)` with the ambient
`datetime.now()` passed explicitly as `now`. The result is the
`'%Y-%m-%d'` string, `none` for "no date found", or an escaping Python
exception. -/
def parse_date_string (pdt du : String → Date → Option Date)
    (natural_date : Option String) (base_date : Option Date) (now : Date) :
    Except PyExn (Option String) :=
  match natural_date with
  | none => .ok none
  | some nd =>
    if nd = "" then .ok none
    else
      if containsSub (normL nd) dayAfterTomorrowL then
        Except.map (fun d => some (formatDate d)) (addDays (base_date.getD now) 2)
      else if containsSub (normL nd) tomorrowL then
        Except.map (fun d => some (formatDate d)) (addDays (base_date.getD now) 1)
      else if normL nd = nextMonthL then
        Except.map (fun d => some (formatDate d)) (nextMonthRd (base_date.getD now))
      else
        match findAfterDays (normL nd) with
        | some n => Except.map (fun d => some (formatDate d)) (addDays (base_date.getD now) n)
        | none => .ok (fallback2 pdt du nd (base_date.getD now))

/-! ### The completeness check and response assembly
(`is_missing` and the `/search` handler `parse_query`, src/app.py 109-216) -/

/-- `is_missing(value)` (src/app.py 109-113). The handler only ever passes it
the `from`/`to` values of the extraction, which are JSON strings or null, so
the `str(value)` coercion is the identity here and the argument is modelled
as `Option String`. Normalization is `strip()` then `lower()`. -/
def is_missing (value : Option String) : Bool :=
  match value with
  | none => true
  | some s =>
    let w := (trimL s.data).map lowerChar
    w == "".data || w == "none".data || w == "not provided".data
      || w == "departure city (not provided)".data
      || w == "arrival city (not provided)".data

/-- Python truthiness of an optional string (`None` and `""` are falsy). -/
def truthyOpt (v : Option String) : Bool :=
  match v with
  | none => false
  | some s => s ≠ ""

/-- The draft extraction produced by the upstream model, after the typed
reads on src/app.py lines 149-161. `none` on `depfrom`/`arrto`/`depdate_raw`/
`retdate_raw` models a JSON null or an absent key (indistinguishable under
`.get`); on the defaulted fields it models an absent key. -/
structure Parsed where
  depfrom : Option String
  arrto : Option String
  depdate_raw : Option String
  retdate_raw : Option String
  adults : Option Int
  children : Option Int
  infants : Option Int
  cabin : Option String
  airline_include : Option String
  deriving DecidableEq, Repr

/-- One flight segment of the booking payload. -/
structure Segment where
  depfrom : Option String
  arrto : Option String
  depdate : Option String
  deriving DecidableEq, Repr

/-- The booking payload of the complete response (src/app.py 189-211). -/
structure Payload where
  adults : Int
  children : Int
  infants : Int
  cabin : String
  stops : Bool
  airline_include : String
  ages : List Int
  segments : List Segment
  deriving DecidableEq, Repr

/-- The JSON response of the handler: the incomplete object (with its
`message`, `missing_fields`, `follow_up` and `parsed` echo), the complete
object, or the 500 error produced by the surrounding `try/except`. -/
inductive Response where
  | incomplete (message : String) (missing_fields follow_up : List String)
      (pfrom pto pdep : Option String)
  | complete (payload : Payload)
  | error (e : PyExn)
  deriving DecidableEq, Repr

/-- Follow-up prompt for `from` (src/app.py 168). -/
def qFrom : String := "✈️ Where are you flying *from*?"

/-- Follow-up prompt for `to` (src/app.py 171). -/
def qTo : String := "🛬 Where are you flying *to*?"

/-- Follow-up prompt for `depdate` (src/app.py 174). -/
def qDep : String := "📅 When do you want to *depart*?"

/-- ASCII lower-casing of a string (`str.lower`). -/
def lowerStr (s : String) : String := ⟨s.data.map lowerChar⟩

/-- The missing-field and follow-up lists built in lockstep by the three
checks of src/app.py lines 163-174; `depdate` is the resolved value. -/
def missingAndPrompts (depfrom arrto depdate_raw depdate : Option String) :
    List String × List String :=
  ((if is_missing depfrom then ["from"] else [])
     ++ (if is_missing arrto then ["to"] else [])
     ++ (if !truthyOpt depdate_raw || !truthyOpt depdate then ["depdate"] else []),
   (if is_missing depfrom then [qFrom] else [])
     ++ (if is_missing arrto then [qTo] else [])
     ++ (if !truthyOpt depdate_raw || !truthyOpt depdate then [qDep] else []))

/-- `", ".join(missing_fields)` prefixed as in src/app.py 179. -/
def joinComma : List String → String
  | [] => ""
  | [s] => s
  | s :: rest => s ++ ", " ++ joinComma rest

/-- The `parsed` echo field `depdate_raw or None` (src/app.py 185). -/
def echoRaw (r : Option String) : Option String :=
  if truthyOpt r then r else none

/-- Segments list of the payload: one outbound segment, plus the reversed
return segment when `retdate` is truthy (src/app.py 197-211). -/
def mkSegs (p : Parsed) (depdate retdate : Option String) : List Segment :=
  if truthyOpt retdate then
    [⟨p.depfrom, p.arrto, depdate⟩, ⟨p.arrto, p.depfrom, retdate⟩]
  else
    [⟨p.depfrom, p.arrto, depdate⟩]

/-- The complete-response payload with defaults applied
(src/app.py 157-161 and 189-211). -/
def mkPayload (p : Parsed) (depdate retdate : Option String) : Payload :=
  ⟨p.adults.getD 1, p.children.getD 0, p.infants.getD 0,
   lowerStr (p.cabin.getD "economy"), false, p.airline_include.getD "",
   [], mkSegs p depdate retdate⟩

/-- Line 154: `depdate = parse_date_string(depdate_raw) if depdate_raw else None`. -/
def depdateResolved (pdt du : String → Date → Option Date) (now : Date)
    (depdate_raw : Option String) : Except PyExn (Option String) :=
  if truthyOpt depdate_raw then parse_date_string pdt du depdate_raw none now
  else .ok none

/-- Line 155: `retdate = parse_date_string(retdate_raw,
base_date=datetime.strptime(depdate, "%Y-%m-%d")) if retdate_raw and depdate
else None`. An unparseable `depdate` string would raise `ValueError` from
`strptime` (dead in practice: `depdate` is always a `strftime` output). -/
def retdateResolvedAux (pdt du : String → Date → Option Date) (now : Date)
    (retdate_raw depdate : Option String) : Except PyExn (Option String) :=
  if truthyOpt retdate_raw && truthyOpt depdate then
    match strptimeYMD (depdate.getD "") with
    | none => .error .valueError
    | some b => parse_date_string pdt du retdate_raw (some b) now
  else .ok none

/-- The core of the `/search` handler `parse_query` (src/app.py 149-219),
from the typed extraction onward, with the ambient `datetime.now()` passed as
`now` and the surrounding `try/except` reflected in `Response.error`. -/
def parse_query (pdt du : String → Date → Option Date) (now : Date)
    (p : Parsed) : Response :=
  match depdateResolved pdt du now p.depdate_raw with
  | .error ex => .error ex
  | .ok depdate =>
    match retdateResolvedAux pdt du now p.retdate_raw depdate with
    | .error ex => .error ex
    | .ok retdate =>
      if ((missingAndPrompts p.depfrom p.arrto p.depdate_raw depdate).1).isEmpty then
        .complete (mkPayload p depdate retdate)
      else
        .incomplete
          ("Missing fields: "
            ++ joinComma (missingAndPrompts p.depfrom p.arrto p.depdate_raw depdate).1)
          (missingAndPrompts p.depfrom p.arrto p.depdate_raw depdate).1
          (missingAndPrompts p.depfrom p.arrto p.depdate_raw depdate).2
          p.depfrom p.arrto (echoRaw p.depdate_raw)

/-- Is the response the complete object? -/
def Response.isComplete : Response → Bool
  | .complete _ => true
  | _ => false

/-- The prompt paired with each missing-field name. -/
def promptFor (f : String) : String :=
  if f = "from" then qFrom else if f = "to" then qTo else qDep

/-- A fallback parser pair that always fails (used to instantiate theorems at
concrete inputs whose cascade never reaches the library fallbacks). -/
def noDate : String → Date → Option Date := fun _ _ => none

/-- A fallback parser that always yields 2025-03-10, standing in for a
library parse of an absolute March-10 date expression. -/
def marchTen : String → Date → Option Date := fun _ _ => some ⟨2025, 3, 10⟩

/-! ### Helper lemmas -/

/-- The ordinal of a date is at least its day-of-month (the day is the last
summand of `toOrdinal`). -/
theorem day_le_toOrdinal (d : Date) : d.day ≤ toOrdinal d := by
  unfold toOrdinal
  exact Nat.le_add_left _ _

/-- A valid date has day-of-month at least 1. -/
theorem validB_one_le_day (d : Date) (h : d.validB = true) : 1 ≤ d.day := by
  unfold Date.validB at h
  simp only [Bool.and_eq_true, Nat.ble_eq] at h
  exact h.1.2

/-- A valid date has a positive ordinal. -/
theorem validB_one_le_toOrdinal (d : Date) (h : d.validB = true) :
    1 ≤ toOrdinal d :=
  le_trans (validB_one_le_day d h) (day_le_toOrdinal d)

/-- A truthy optional string is a nonempty `some`. -/
theorem truthyOpt_eq_true (o : Option String) (h : truthyOpt o = true) :
    ∃ s, o = some s ∧ ¬ s = "" := by
  cases o with
  | none => simp [truthyOpt] at h
  | some s =>
    refine ⟨s, rfl, ?_⟩
    simpa [truthyOpt] using h

/-! ### Claims -/

/-- C1: Return-date anchoring asymmetry. First part: for any extraction
record whose departure expression resolved to "2025-03-10" and whose raw
return expression is "after 10 days", the handler resolves the return date
to "2025-03-20" for every value of the system date `now` and every behaviour
of the fallback parsers — the anchor is the resolved departure date, not the
system date. Second part: whenever the departure slot is not truthy (the
expression was absent or every strategy failed, so the resolved value is
`None`), the resolved return date is `None` as well (the resolver is not
invoked: the guard of src/app.py line 155 fails). -/
theorem thm_C1 :
    (∀ (pdt du : String → Date → Option Date) (now : Date) (p : Parsed),
      depdateResolved pdt du now p.depdate_raw = .ok (some "2025-03-10") →
      p.retdate_raw = some "after 10 days" →
      retdateResolvedAux pdt du now p.retdate_raw (some "2025-03-10") =
        .ok (some "2025-03-20"))
    ∧ (∀ (pdt du : String → Date → Option Date) (now : Date) (p : Parsed)
        (dd : Option String),
      depdateResolved pdt du now p.depdate_raw = .ok dd →
      truthyOpt dd = false →
      retdateResolvedAux pdt du now p.retdate_raw dd = .ok none) := by
  constructor
  · intro pdt du now p _ h2
    rw [h2]
    unfold retdateResolvedAux
    rw [if_pos (by decide :
      (truthyOpt (some "after 10 days") && truthyOpt (some "2025-03-10")) = true)]
    simp only [show strptimeYMD ((some "2025-03-10").getD "") = some ⟨2025, 3, 10⟩
      from by decide]
    simp only [parse_date_string]
    rw [if_neg (by decide : ¬ ("after 10 days" = ""))]
    rw [if_neg (by decide :
      ¬ (containsSub (normL "after 10 days") dayAfterTomorrowL = true))]
    rw [if_neg (by decide : ¬ (containsSub (normL "after 10 days") tomorrowL = true))]
    rw [if_neg (by decide : ¬ (normL "after 10 days" = nextMonthL))]
    simp only [show findAfterDays (normL "after 10 days") = some 10 from by decide,
      Option.getD_some]
    decide
  · intro pdt du now p dd _ h2
    unfold retdateResolvedAux
    rw [h2]
    simp

/-- C1 witness: with a fallback parser standing in for a library parse of
"10 March 2025" and the system date set to 2099-12-31, the return expression
"after 10 days" resolves to 2025-03-20, anchored on the departure date. -/
theorem thm_C1_witness :
    retdateResolvedAux marchTen noDate ⟨2099, 12, 31⟩ (some "after 10 days")
      (some "2025-03-10") = .ok (some "2025-03-20") :=
  thm_C1.1 marchTen noDate ⟨2099, 12, 31⟩
    ⟨some "DEL", some "DXB", some "10 March 2025", some "after 10 days",
     none, none, none, none, none⟩ (by decide) rfl

/-- C2 (amended): exact-phrase strategy. For every anchor (a valid
`datetime`), every fallback-parser behaviour and every expression, if the
lowercased stripped form contains "day after tomorrow" the resolver returns
anchor + 2 days, and if it contains "tomorrow" but not "day after tomorrow"
it returns anchor + 1 day — provided the target stays within the `datetime`
range (ordinal at most 3652059 = 9999-12-31); at the last anchors of the
calendar the addition instead raises `OverflowError` (see the
counterexample). The conclusion holds for all `pdt`/`du`, so the phrases are
never overridden by the relative-offset pattern or the parser fallbacks. -/
theorem thm_C2 :
    (∀ (pdt du : String → Date → Option Date) (e : String) (b : Option Date)
        (now : Date),
      (b.getD now).validB = true →
      containsSub (normL e) dayAfterTomorrowL = true →
      toOrdinal (b.getD now) + 2 ≤ maxOrdinal →
      parse_date_string pdt du (some e) b now =
        .ok (some (formatDate (fromOrdinal (toOrdinal (b.getD now) + 2)))))
    ∧ (∀ (pdt du : String → Date → Option Date) (e : String) (b : Option Date)
        (now : Date),
      (b.getD now).validB = true →
      containsSub (normL e) tomorrowL = true →
      containsSub (normL e) dayAfterTomorrowL = false →
      toOrdinal (b.getD now) + 1 ≤ maxOrdinal →
      parse_date_string pdt du (some e) b now =
        .ok (some (formatDate (fromOrdinal (toOrdinal (b.getD now) + 1))))) := by
  constructor
  · intro pdt du e b now _ h1 h2
    have he : ¬ e = "" := fun h => absurd (h ▸ h1) (by decide)
    simp only [parse_date_string, if_neg he, if_pos h1]
    unfold addDays
    rw [if_neg (by decide : ¬ ((2 : Nat) > 999999999)), if_neg (Nat.not_lt.mpr h2)]
    rfl
  · intro pdt du e b now _ h1 hdat h2
    have he : ¬ e = "" := fun h => absurd (h ▸ h1) (by decide)
    have hdat' : ¬ (containsSub (normL e) dayAfterTomorrowL = true) := by
      simp [hdat]
    simp only [parse_date_string, if_neg he, if_neg hdat', if_pos h1]
    unfold addDays
    rw [if_neg (by decide : ¬ ((1 : Nat) > 999999999)), if_neg (Nat.not_lt.mpr h2)]
    rfl

/-- C2 counterexample: 9999-12-31 is a valid anchor, but resolving "tomorrow"
there raises `OverflowError` (uncaught in `parse_date_string`) instead of
returning anchor + 1 day, so the claim does not hold for every anchor. -/
theorem thm_C2_counter :
    parse_date_string noDate noDate (some "tomorrow") none ⟨9999, 12, 31⟩ =
      .error .overflowError ∧ Date.validB ⟨9999, 12, 31⟩ = true := by
  exact ⟨by decide, by decide⟩

/-- C2 witness: both phrases at anchor 2025-06-01, case-insensitively, with
surrounding text; the second input also contains "after 100 days", showing
the phrase strategy wins over the later relative-offset pattern. -/
theorem thm_C2_witness :
    parse_date_string noDate noDate (some " Day AFTER Tomorrow ") none
      ⟨2025, 6, 1⟩ = .ok (some "2025-06-03") ∧
    parse_date_string noDate noDate (some "book tomorrow after 100 days") none
      ⟨2025, 6, 1⟩ = .ok (some "2025-06-02") := by
  constructor
  · exact (thm_C2.1 noDate noDate " Day AFTER Tomorrow " none ⟨2025, 6, 1⟩
      (by decide) (by decide) (by decide)).trans (by decide)
  · exact (thm_C2.2 noDate noDate "book tomorrow after 100 days" none ⟨2025, 6, 1⟩
      (by decide) (by decide) (by decide) (by decide)).trans (by decide)

/-- C3 (amended): relative-offset pattern. For every anchor, every expression
whose normalized form matches `after (\d+) days?` with captured number `n`
and contains no earlier-strategy phrase, the resolver returns anchor + `n`
days (including `n = 0`), for every fallback behaviour — provided
anchor + `n` stays within the `datetime` range (ordinal at most 3652059);
for larger `n` the date arithmetic raises `OverflowError` instead (see the
counterexample). Second part: a negative number as in "after -3 days" does
not match the pattern at all, and the expression falls through to the two
parser fallbacks without crashing. -/
theorem thm_C3 :
    (∀ (pdt du : String → Date → Option Date) (e : String) (b : Option Date)
        (now : Date) (n : Nat),
      (b.getD now).validB = true →
      containsSub (normL e) dayAfterTomorrowL = false →
      containsSub (normL e) tomorrowL = false →
      ¬ normL e = nextMonthL →
      findAfterDays (normL e) = some n →
      toOrdinal (b.getD now) + n ≤ maxOrdinal →
      parse_date_string pdt du (some e) b now =
        .ok (some (formatDate (fromOrdinal (toOrdinal (b.getD now) + n)))))
    ∧ (∀ (pdt du : String → Date → Option Date) (b : Option Date) (now : Date),
      findAfterDays (normL "after -3 days") = none ∧
      parse_date_string pdt du (some "after -3 days") b now =
        .ok (fallback2 pdt du "after -3 days" (b.getD now))) := by
  constructor
  · intro pdt du e b now n hv hdat htom hnm hfind hbound
    have he : ¬ e = "" := by
      intro h
      subst h
      rw [(by decide : findAfterDays (normL "") = none)] at hfind
      simp at hfind
    have hdat' : ¬ (containsSub (normL e) dayAfterTomorrowL = true) := by simp [hdat]
    have htom' : ¬ (containsSub (normL e) tomorrowL = true) := by simp [htom]
    have hord : 1 ≤ toOrdinal (b.getD now) := validB_one_le_toOrdinal _ hv
    have hbound' : toOrdinal (b.getD now) + n ≤ 3652059 := by
      simpa only [maxOrdinal] using hbound
    have hn : ¬ (n > 999999999) := by omega
    simp only [parse_date_string, if_neg he, if_neg hdat', if_neg htom', if_neg hnm]
    simp only [hfind]
    unfold addDays
    rw [if_neg hn, if_neg (Nat.not_lt.mpr hbound)]
    rfl
  · intro pdt du b now
    exact ⟨by decide, rfl⟩

/-- C3 counterexample: "after 3000000 days" matches the pattern with a
perfectly parseable non-negative number, yet at anchor 2025-06-01 the
resolver raises `OverflowError` (the target year is about 10239, past
`datetime.max`) instead of resolving to anchor + 3000000 days. -/
theorem thm_C3_counter :
    findAfterDays (normL "after 3000000 days") = some 3000000 ∧
    parse_date_string noDate noDate (some "after 3000000 days") none
      ⟨2025, 6, 1⟩ = .error .overflowError := by
  exact ⟨by decide, by decide⟩

/-- C3 witness: "after 5 days" with surrounding text yields anchor + 5, and
"after 0 days" yields the anchor itself. -/
theorem thm_C3_witness :
    parse_date_string noDate noDate (some "please book after 5 days") none
      ⟨2025, 6, 1⟩ = .ok (some "2025-06-06") ∧
    parse_date_string noDate noDate (some "after 0 days") none ⟨2025, 6, 1⟩ =
      .ok (some "2025-06-01") := by
  constructor
  · exact (thm_C3.1 noDate noDate "please book after 5 days" none ⟨2025, 6, 1⟩ 5
      (by decide) (by decide) (by decide) (by decide) (by decide)
      (by decide)).trans (by decide)
  · exact (thm_C3.1 noDate noDate "after 0 days" none ⟨2025, 6, 1⟩ 0
      (by decide) (by decide) (by decide) (by decide) (by decide)
      (by decide)).trans (by decide)

/-- C4 (amended): for every valid anchor whose following month is still
representable (target year at most 9999), an expression equal to
"next month" after trimming and lowercasing resolves to the anchor advanced
by one calendar month, with the day clamped to the target month's last valid
day; for a December-9999 anchor, `datetime.replace` inside `relativedelta`
raises `ValueError` instead (see the counterexample). -/
theorem thm_C4 :
    ∀ (pdt du : String → Date → Option Date) (e : String) (b : Option Date)
      (now : Date),
      (b.getD now).validB = true →
      normL e = nextMonthL →
      (nextMonthDate (b.getD now)).year ≤ 9999 →
      parse_date_string pdt du (some e) b now =
        .ok (some (formatDate (nextMonthDate (b.getD now)))) := by
  intro pdt du e b now _ h1 h2
  have he : ¬ e = "" := by
    intro h
    subst h
    exact absurd h1 (by decide)
  simp only [parse_date_string, h1]
  rw [if_neg he]
  rw [if_neg (by decide : ¬ (containsSub nextMonthL dayAfterTomorrowL = true))]
  rw [if_neg (by decide : ¬ (containsSub nextMonthL tomorrowL = true))]
  simp only [if_true]
  unfold nextMonthRd
  rw [if_neg (Nat.not_lt.mpr h2)]
  rfl

/-- C4 counterexample: 9999-12-15 is a valid anchor, but "next month" there
raises `ValueError` instead of producing a clamped next-month date, so the
claim does not hold for every anchor. -/
theorem thm_C4_counter :
    parse_date_string noDate noDate (some "next month") none ⟨9999, 12, 15⟩ =
      .error .valueError ∧ Date.validB ⟨9999, 12, 15⟩ = true := by
  exact ⟨by decide, by decide⟩

/-- C4 witness: the two clamping cases of the claim — 2024-01-31 advances to
2024-02-29 (leap year) and 2023-01-31 to 2023-02-28 (non-leap year). -/
theorem thm_C4_witness :
    parse_date_string noDate noDate (some " Next Month ") none ⟨2024, 1, 31⟩ =
      .ok (some "2024-02-29") ∧
    parse_date_string noDate noDate (some "next month") none ⟨2023, 1, 31⟩ =
      .ok (some "2023-02-28") := by
  constructor
  · exact (thm_C4 noDate noDate " Next Month " none ⟨2024, 1, 31⟩
      (by decide) (by decide) (by decide)).trans (by decide)
  · exact (thm_C4 noDate noDate "next month" none ⟨2023, 1, 31⟩
      (by decide) (by decide) (by decide)).trans (by decide)

/-- C5 (code bug): the claim — and the spec — say no exception escapes the
resolver under any input, with silent absence as the worst case. The code
violates this: "after 4000000 days" matches the relative-offset pattern and
the uncaught `datetime` addition `today + timedelta(days=4000000)` raises
`OverflowError` (the target is past `datetime.max`, 9999-12-31), which
escapes `parse_date_string`. This theorem evaluates the modelled code at
that failing input. -/
theorem thm_C5 :
    parse_date_string noDate noDate (some "after 4000000 days") none
      ⟨2025, 6, 1⟩ = .error .overflowError := by decide

/-- C6: missing-field order and lockstep prompts. (1) For every record, the
missing list is a sublist of `["from", "to", "depdate"]` (so it contains only
those names, in that fixed relative order — in particular `retdate` never
appears) and the prompt list is exactly the missing list mapped through the
field-to-prompt table (lockstep). (2) The claim's instance: origin missing
(here a sentinel string) and departure date missing, destination present,
yields exactly `["from", "depdate"]` with the two prompts in matching order.
(3) Whenever the two date resolutions return normally, the response is the
complete object exactly when the missing list — computed without any use of
the return date — is empty, so the return date never blocks completeness and
never generates a prompt. -/
theorem thm_C6 :
    (∀ (f t dr dd : Option String),
      List.Sublist (missingAndPrompts f t dr dd).1 ["from", "to", "depdate"]
      ∧ (missingAndPrompts f t dr dd).2 = (missingAndPrompts f t dr dd).1.map promptFor)
    ∧ missingAndPrompts (some "Not Provided") (some "DXB") none none =
        (["from", "depdate"], [qFrom, qDep])
    ∧ (∀ (pdt du : String → Date → Option Date) (now : Date) (p : Parsed)
        (dd rd : Option String),
      depdateResolved pdt du now p.depdate_raw = .ok dd →
      retdateResolvedAux pdt du now p.retdate_raw dd = .ok rd →
      (parse_query pdt du now p).isComplete =
        (missingAndPrompts p.depfrom p.arrto p.depdate_raw dd).1.isEmpty) := by
  refine ⟨?_, by decide, ?_⟩
  · intro f t dr dd
    constructor
    · cases h1 : is_missing f <;> cases h2 : is_missing t <;>
        cases h3 : (!truthyOpt dr || !truthyOpt dd) <;>
        simp [missingAndPrompts, h1, h2, h3]
    · cases h1 : is_missing f <;> cases h2 : is_missing t <;>
        cases h3 : (!truthyOpt dr || !truthyOpt dd) <;>
        simp [missingAndPrompts, h1, h2, h3, promptFor]
  · intro pdt du now p dd rd h1 h2
    simp only [parse_query, h1, h2]
    cases hm : (missingAndPrompts p.depfrom p.arrto p.depdate_raw dd).1.isEmpty <;>
      simp [hm, Response.isComplete]

/-- C6 witness: a fully present record is complete (conjunct 3 applied at a
concrete input, with both resolutions returning normally). -/
theorem thm_C6_witness :
    (parse_query noDate noDate ⟨2025, 6, 1⟩
      ⟨some "DEL", some "DXB", some "day after tomorrow", some "after 10 days",
       none, none, none, none, none⟩).isComplete = true :=
  (thm_C6.2.2 noDate noDate ⟨2025, 6, 1⟩
    ⟨some "DEL", some "DXB", some "day after tomorrow", some "after 10 days",
     none, none, none, none, none⟩ (some "2025-06-03") (some "2025-06-13")
    (by decide) (by decide)).trans (by decide)

/-- Predicate modelled from the claim's words for C7: a field counts as
missing iff the value is the absence marker, or its whitespace-trimmed,
lowercased form equals one of the sentinel strings: the empty string,
"not provided", "departure city (not provided)", "arrival city (not
provided)". -/
def is_missing_claim (value : Option String) : Bool :=
  match value with
  | none => true
  | some s =>
    let w := (trimL s.data).map lowerChar
    w == "".data || w == "not provided".data
      || w == "departure city (not provided)".data
      || w == "arrival city (not provided)".data

/-- The claim's predicate for C7 amended with the one further sentinel the
code recognises: the string "none". -/
def is_missing_claim_amended (value : Option String) : Bool :=
  match value with
  | none => true
  | some s =>
    let w := (trimL s.data).map lowerChar
    w == "".data || w == "none".data || w == "not provided".data
      || w == "departure city (not provided)".data
      || w == "arrival city (not provided)".data

/-- C7 counterexample: the code's `is_missing` also treats the literal string
"None" (trimmed lowercased form "none") as missing, but the claim's sentinel
list does not include it, so the claimed equivalence fails at this value. -/
theorem thm_C7_counter :
    is_missing (some "None") = true ∧ is_missing_claim (some "None") = false := by
  exact ⟨by decide, by decide⟩

/-- C7 (amended): a field counts as missing iff the value is the absence
marker or its trimmed lowercased form is one of: the empty string, "none",
"not provided", "departure city (not provided)", "arrival city (not
provided)". In particular "Departure City (Not Provided)" in any letter case
(and with surrounding whitespace) is treated as absent. -/
theorem thm_C7 :
    (∀ v, is_missing v = true ↔ is_missing_claim_amended v = true)
    ∧ is_missing (some "Departure City (NOT Provided)") = true
    ∧ is_missing (some "  dEpArTuRe CiTy (nOt PrOvIdEd)  ") = true
    ∧ is_missing none = true := by
  refine ⟨?_, by decide, by decide, by decide⟩
  intro v
  cases v <;> exact Iff.rfl

/-- C8 counterexample: on the record `{from: "DEL", to: null, depdate:
"tomorrow"}` at anchor 2025-06-01 the handler does return Incomplete with
missing exactly `["to"]`, and the departure expression does resolve to
"2025-06-02" — but the `parsed` echo carries the raw expression "tomorrow",
not the resolved date "2025-06-02" as the claim states. -/
theorem thm_C8_counter :
    parse_query noDate noDate ⟨2025, 6, 1⟩
      ⟨some "DEL", none, some "tomorrow", none, none, none, none, none, none⟩ =
      .incomplete "Missing fields: to" ["to"] [qTo] (some "DEL") none (some "tomorrow")
    ∧ depdateResolved noDate noDate ⟨2025, 6, 1⟩ (some "tomorrow") =
        .ok (some "2025-06-02")
    ∧ ¬ ((some "tomorrow" : Option String) = some "2025-06-02") := by
  exact ⟨by decide, by decide, by decide⟩

/-- C8 (amended): the record `{from: "DEL", to: absent, depdate: "tomorrow"}`
at anchor 2025-06-01 yields Incomplete with missing exactly `["to"]` and its
prompt, and the response's parsed fields echo the raw values — origin "DEL",
destination absent, and the raw departure expression "tomorrow" (the
resolved date 2025-06-02 is computed but not included in an incomplete
response). -/
theorem thm_C8 :
    parse_query noDate noDate ⟨2025, 6, 1⟩
      ⟨some "DEL", none, some "tomorrow", none, none, none, none, none, none⟩ =
      .incomplete "Missing fields: to" ["to"] [qTo] (some "DEL") none
        (some "tomorrow") := by decide

/-- C9 (amended): for every record whose date resolutions return normally and
whose missing-field list is empty, the handler returns the complete object
carrying the record with defaults applied: adults 1 when absent, children
and infants 0 when absent, cabin "economy" when absent and lower-cased in
every case, preferred airline the empty string when absent. Without the
normal-return condition the claim fails: see the counterexample, where an
out-of-range return offset turns an otherwise complete record into a 500
error. -/
theorem thm_C9 :
    ∀ (pdt du : String → Date → Option Date) (now : Date) (p : Parsed)
      (dd rd : Option String),
      depdateResolved pdt du now p.depdate_raw = .ok dd →
      retdateResolvedAux pdt du now p.retdate_raw dd = .ok rd →
      (missingAndPrompts p.depfrom p.arrto p.depdate_raw dd).1 = [] →
      parse_query pdt du now p = .complete (mkPayload p dd rd)
      ∧ (mkPayload p dd rd).adults = p.adults.getD 1
      ∧ (mkPayload p dd rd).children = p.children.getD 0
      ∧ (mkPayload p dd rd).infants = p.infants.getD 0
      ∧ (mkPayload p dd rd).cabin = lowerStr (p.cabin.getD "economy")
      ∧ (p.cabin = none → (mkPayload p dd rd).cabin = "economy")
      ∧ (mkPayload p dd rd).airline_include = p.airline_include.getD "" := by
  intro pdt du now p dd rd h1 h2 h3
  refine ⟨?_, rfl, rfl, rfl, rfl, ?_, rfl⟩
  · simp only [parse_query, h1, h2, h3, List.isEmpty_nil, if_true]
  · intro hc
    simp only [mkPayload, hc]
    decide

/-- C9 counterexample: a record with origin, destination and a resolving
departure date (missing list empty) but a return expression "after 9999999
days" makes line 155 raise `OverflowError`, so the handler returns the 500
error object, not Complete. -/
theorem thm_C9_counter :
    parse_query noDate noDate ⟨2025, 6, 1⟩
      ⟨some "DEL", some "DXB", some "tomorrow", some "after 9999999 days",
       none, none, none, none, none⟩ = .error .overflowError
    ∧ (missingAndPrompts (some "DEL") (some "DXB") (some "tomorrow")
        (some "2025-06-02")).1 = [] := by
  exact ⟨by decide, by decide⟩

/-- C9 witness: the spec's end-to-end complete example, with a preferred
airline present and the default passenger counts and cabin applied. -/
theorem thm_C9_witness :
    parse_query noDate noDate ⟨2025, 6, 1⟩
      ⟨some "DEL", some "DXB", some "day after tomorrow", some "after 10 days",
       none, none, none, none, some "AI"⟩ =
      .complete ⟨1, 0, 0, "economy", false, "AI", [],
        [⟨some "DEL", some "DXB", some "2025-06-03"⟩,
         ⟨some "DXB", some "DEL", some "2025-06-13"⟩]⟩ :=
  ((thm_C9 noDate noDate ⟨2025, 6, 1⟩
    ⟨some "DEL", some "DXB", some "day after tomorrow", some "after 10 days",
     none, none, none, none, some "AI"⟩ (some "2025-06-03") (some "2025-06-13")
    (by decide) (by decide) (by decide)).1).trans (by decide)

/-- C10: round-trip segment construction. Every complete response carries a
resolved departure date string `ds`, and its payload has exactly one segment
`(origin, destination, ds)` when the return date is absent or unresolved
(not truthy), and exactly two segments when a return date resolved, the
second being `(destination, origin, retdate)` — origin and destination
swapped. -/
theorem thm_C10 :
    ∀ (pdt du : String → Date → Option Date) (now : Date) (p : Parsed)
      (pl : Payload),
      parse_query pdt du now p = .complete pl →
      ∃ ds rd, depdateResolved pdt du now p.depdate_raw = .ok (some ds)
        ∧ retdateResolvedAux pdt du now p.retdate_raw (some ds) = .ok rd
        ∧ ((truthyOpt rd = false
              ∧ pl.segments = [⟨p.depfrom, p.arrto, some ds⟩])
           ∨ (truthyOpt rd = true
              ∧ pl.segments = [⟨p.depfrom, p.arrto, some ds⟩,
                               ⟨p.arrto, p.depfrom, rd⟩])) := by
  intro pdt du now p pl h
  cases h1 : depdateResolved pdt du now p.depdate_raw with
  | error ex =>
    simp only [parse_query, h1] at h
    exact Response.noConfusion h
  | ok dd =>
    cases h2 : retdateResolvedAux pdt du now p.retdate_raw dd with
    | error ex =>
      simp only [parse_query, h1, h2] at h
      exact Response.noConfusion h
    | ok rd =>
      simp only [parse_query, h1, h2] at h
      by_cases hm : (missingAndPrompts p.depfrom p.arrto p.depdate_raw dd).1.isEmpty = true
      · rw [if_pos hm] at h
        have hdd : truthyOpt dd = true := by
          cases hdt : truthyOpt dd with
          | false => simp [missingAndPrompts, hdt] at hm
          | true => rfl
        obtain ⟨ds, hds, -⟩ := truthyOpt_eq_true dd hdd
        subst hds
        injection h with hpl
        subst hpl
        refine ⟨ds, rd, rfl, h2, ?_⟩
        cases hrd : truthyOpt rd with
        | false =>
          left
          exact ⟨rfl, by simp [mkPayload, mkSegs, hrd]⟩
        | true =>
          right
          exact ⟨rfl, by simp [mkPayload, mkSegs, hrd]⟩
      · rw [if_neg hm] at h
        simp at h

/-- C10 witness: a one-way check is impossible to read off from a single run,
so the witness instantiates the theorem at a round-trip record resolving to
two segments, BOM to BLR on 2025-06-02 and back on 2025-06-09. -/
theorem thm_C10_witness :
    ∃ ds rd,
      depdateResolved noDate noDate ⟨2025, 6, 1⟩ (some "tomorrow") = .ok (some ds)
      ∧ retdateResolvedAux noDate noDate ⟨2025, 6, 1⟩ (some "after 7 days")
          (some ds) = .ok rd
      ∧ ((truthyOpt rd = false
            ∧ ([⟨some "BOM", some "BLR", some "2025-06-02"⟩,
                ⟨some "BLR", some "BOM", some "2025-06-09"⟩] : List Segment) =
              [⟨some "BOM", some "BLR", some ds⟩])
         ∨ (truthyOpt rd = true
            ∧ ([⟨some "BOM", some "BLR", some "2025-06-02"⟩,
                ⟨some "BLR", some "BOM", some "2025-06-09"⟩] : List Segment) =
              [⟨some "BOM", some "BLR", some ds⟩, ⟨some "BLR", some "BOM", rd⟩])) :=
  thm_C10 noDate noDate ⟨2025, 6, 1⟩
    ⟨some "BOM", some "BLR", some "tomorrow", some "after 7 days",
     none, none, none, none, none⟩
    ⟨1, 0, 0, "economy", false, "", [],
     [⟨some "BOM", some "BLR", some "2025-06-02"⟩,
      ⟨some "BLR", some "BOM", some "2025-06-09"⟩]⟩ (by decide)

end SmartSearch
